import Mathlib

/-!
# Verification of `pyinputlanguage.py`

Shallow embedding of the single module `src/pyinputlanguage.py`, which exposes
one function, `macSwitchInputLanguage(inputSourceCode)`, switching the active
macOS input source via two Carbon Text Input Source Services entry points:

* `TISCreateInputSourceList(filter, includeAllInstalled)` — returns the list of
  input sources matching a property dictionary, or NULL;
* `TISSelectInputSource(source)` — makes a source active, returning an
  `OSStatus` (the binding declares `restype = c_uint32`, so the Python value is
  a non-negative machine integer; we model it as `Nat`, with `0` = success).

The native layer is external to the repository, so the embedding is
parameterised by an environment `TISSystem σ α`: `σ` is the type of ambient
system state threaded through the (stateful) selection call, `α` the type of
native input-source handles.  The wrapper itself is pure Python over these two
calls; its embedding `macSwitchInputLanguage` returns the Python-level outcome
(`Except PyError Unit`; the Python function returns `None` on success), the
final system state, and the trace of native calls issued, in order.

Faithfulness notes, keyed to the source:
* line 63: `properties` is the single-entry dictionary
  `{"TISPropertyInputSourceID": inputSourceCode}`; we embed the dictionary as
  an association list with that one entry.
* lines 68–71: the NULL result of `TISCreateInputSourceList` surfaces in
  Python as `None` (the `objcify` wrapper maps a nil pointer to `None`), and
  the code raises `InputLanguageNotFoundError` exactly on `source_list == None`.
* line 73: `source_list[0]` on a *non-None but empty* list follows Python
  sequence semantics and raises the built-in `IndexError`; the code has no
  guard for this case, so the embedding records it as `PyError.indexError`.
* lines 78–80: on a non-zero status the code raises
  `CarbonError("Carbon API failed to switch input method / keyboard layout. Error code: {status}")`.
  The string literal has no `f` prefix, so `{status}` is literal text: the
  message is the same fixed string for every status value.
* lines 44–45 (library loading) are not modelled: per the source comment the
  Carbon library is present on every macOS machine, and loading it has no
  effect observable by the claims.
-/

namespace PyInputLanguage

/-- `KB_US` constant from the source (line 26). -/
def KB_US : String := "com.apple.keylayout.US"

/-- `KB_FRENCH` constant from the source (line 27). -/
def KB_FRENCH : String := "com.apple.keylayout.French"

/-- `IM_JAPANESE` constant from the source (line 28). -/
def IM_JAPANESE : String := "com.apple.inputmethod.Kotoeri.Japanese"

/-- Python-level failure outcomes of `macSwitchInputLanguage`.
`inputLanguageNotFound` and `carbonError` are the module's two exception
classes (source lines 30–33), each carrying its message string.
`indexError` is Python's built-in `IndexError`, raised by `source_list[0]`
(source line 73) when the list returned by the native lookup is empty. -/
inductive PyError where
  | inputLanguageNotFound (msg : String)
  | carbonError (msg : String)
  | indexError
  deriving DecidableEq, Repr

/-- Message of `InputLanguageNotFoundError` (source line 71, verbatim,
including the source's spelling "methodss"). -/
def notFoundMsg : String :=
  "The input method / keyboard layout specified was not found in the list of available input methodss / keyboard layouts of the user."

/-- Message of `CarbonError` (source line 80, verbatim).  The Python literal
lacks the `f` prefix, so the `{status}` placeholder is never interpolated:
this exact text is the message for every status value. -/
def carbonFailMsg : String :=
  "Carbon API failed to switch input method / keyboard layout. Error code: {status}"

/-- Environment: the Carbon Text Input Source Services layer, as used by the
wrapper.  `σ` is the ambient system state (e.g. which source is active), `α`
the type of native input-source handles.

`createInputSourceList` models `TISCreateInputSourceList(filter, False)`: a
read-only query (a Core Foundation `Create` function returning a copied
array), yielding `none` for a NULL result and `some l` for a (possibly empty)
array.  `selectInputSource` models `TISSelectInputSource`: it may change the
system state and returns the `OSStatus` (a `c_uint32`, hence `Nat`). -/
structure TISSystem (σ α : Type) where
  createInputSourceList : List (String × String) → Option (List α)
  selectInputSource : α → σ → Nat × σ

/-- One native call issued by the wrapper, recorded with its argument. -/
inductive TISCall (α : Type) where
  | createInputSourceList (props : List (String × String))
  | selectInputSource (source : α)
  deriving DecidableEq, Repr

/-- `true` exactly on `TISCall.createInputSourceList` events. -/
def TISCall.isCreate : TISCall α → Bool
  | .createInputSourceList _ => true
  | .selectInputSource _ => false

/-- `true` exactly on `TISCall.selectInputSource` events. -/
def TISCall.isSelect : TISCall α → Bool
  | .createInputSourceList _ => false
  | .selectInputSource _ => true

/-- Outcome of one invocation of the wrapper: the Python-level result
(success returns `None`, i.e. `Unit`), the final system state, and the trace
of native calls in the order they were issued. -/
structure RunResult (σ α : Type) where
  result : Except PyError Unit
  state : σ
  calls : List (TISCall α)
  deriving Repr

/-- Embedding of `macSwitchInputLanguage` (source lines 42–80) over a native
environment `sys` and initial system state `st`:

* build `properties = {"TISPropertyInputSourceID": inputSourceCode}` (line 63);
* `source_list = TISCreateInputSourceList(properties, False)` (line 68);
* `if source_list == None: raise InputLanguageNotFoundError(...)` (lines 70–71);
* `source = source_list[0]` (line 73) — raises `IndexError` on an empty list;
* `status = TISSelectInputSource(source)` (line 78);
* `if status != 0: raise CarbonError(...)` (lines 79–80);
* otherwise fall off the end of the function, returning `None`. -/
def macSwitchInputLanguage {σ α : Type} (sys : TISSystem σ α)
    (inputSourceCode : String) (st : σ) : RunResult σ α :=
  let properties : List (String × String) :=
    [("TISPropertyInputSourceID", inputSourceCode)]
  match sys.createInputSourceList properties with
  | none =>
      { result := .error (.inputLanguageNotFound notFoundMsg)
        state := st
        calls := [.createInputSourceList properties] }
  | some [] =>
      { result := .error .indexError
        state := st
        calls := [.createInputSourceList properties] }
  | some (source :: _) =>
      let sel := sys.selectInputSource source st
      if sel.1 ≠ 0 then
        { result := .error (.carbonError carbonFailMsg)
          state := sel.2
          calls := [.createInputSourceList properties, .selectInputSource source] }
      else
        { result := .ok ()
          state := sel.2
          calls := [.createInputSourceList properties, .selectInputSource source] }

/-- Ambient macOS state as far as the wrapper can observe it: the identifier
of the currently active system input source. -/
structure MacState where
  active : String
  deriving DecidableEq, Repr

/-- Reference model of the macOS Text Input Source Services layer, used to
instantiate the environment-quantified theorems and to state the
system-level properties (atomicity, idempotence).  `cfg` is the user's
configured set of input sources; a native handle is identified with its
input-source identifier string.

Per the Carbon documentation: `TISCreateInputSourceList` returns the (possibly
empty) array of configured sources whose properties match the filter
dictionary, and `TISSelectInputSource` on a selectable configured source makes
it active and returns `noErr` (0); on anything else it fails with a non-zero
status and leaves the active source unchanged. -/
def macSystem (cfg : List String) : TISSystem MacState String where
  createInputSourceList := fun props =>
    match props with
    | [(k, v)] =>
        if k = "TISPropertyInputSourceID" then some (cfg.filter (fun s => s = v))
        else none
    | _ => none
  selectInputSource := fun s st =>
    if s ∈ cfg then (0, { active := s }) else (50, st)

/-- Environment in which the native lookup returns an empty (non-NULL) array:
the behaviour of `TISCreateInputSourceList` when no configured source matches
the filter. -/
def emptyLookupSys : TISSystem MacState String where
  createInputSourceList := fun _ => some []
  selectInputSource := fun _ st => (0, st)

/-- Environment in which the lookup matches the French keyboard layout and the
native selection call fails with the given non-zero `OSStatus`. -/
def failingSelectSys (status : Nat) : TISSystem MacState String where
  createInputSourceList := fun _ => some [KB_FRENCH]
  selectInputSource := fun _ st => (status, st)

/-- C1: the claim says an empty *or* absent lookup result raises
`InputLanguageNotFoundError`.  The code only guards `source_list == None`
(absent); when `TISCreateInputSourceList` returns an empty (non-NULL) array —
its behaviour when no configured source matches the filter — `source_list[0]`
on line 73 raises Python's built-in `IndexError` instead.  This theorem
evaluates the embedding at that failing input. -/
theorem c1_empty_lookup_raises_index_error :
    (macSwitchInputLanguage emptyLookupSys KB_FRENCH { active := KB_US }).result
      = .error .indexError := rfl

/-- C2: the claim says the `CarbonError` raised on a non-zero status carries
that status code.  The raised message is built from a string literal with no
`f` prefix (line 80), so the status is never interpolated: at status 5 the
error is `CarbonError` with the fixed placeholder text, and the outcome at
status 7 is the identical exception — the status code is not carried. -/
theorem c2_carbon_error_does_not_carry_status :
    (macSwitchInputLanguage (failingSelectSys 5) KB_FRENCH { active := KB_US }).result
        = .error (.carbonError carbonFailMsg)
      ∧ (macSwitchInputLanguage (failingSelectSys 7) KB_FRENCH { active := KB_US }).result
        = (macSwitchInputLanguage (failingSelectSys 5) KB_FRENCH { active := KB_US }).result :=
  ⟨rfl, rfl⟩

/-- C3: the claim says every failure is `InputLanguageNotFoundError` or
`CarbonError` and no other exception escapes.  When the lookup returns an
empty (non-NULL) list, the unguarded `source_list[0]` (line 73) lets a third
exception type, Python's built-in `IndexError`, escape to the caller. -/
theorem c3_index_error_escapes :
    (macSwitchInputLanguage emptyLookupSys "com.apple.keylayout.Ukrainian"
        { active := KB_US }).result = .error .indexError := rfl

/-- C10: whenever `macSwitchInputLanguage` fails with `CarbonError`, the
message is the fixed literal
`"Carbon API failed to switch input method / keyboard layout. Error code: {status}"`,
for every environment, identifier, initial state and hence every non-zero
status value: the text is independent of the numeric status code. -/
theorem c10_carbon_message_is_fixed {σ α : Type} (sys : TISSystem σ α)
    (code : String) (st : σ) (m : String)
    (h : (macSwitchInputLanguage sys code st).result = .error (.carbonError m)) :
    m = carbonFailMsg := by
  rcases hcr : sys.createInputSourceList [("TISPropertyInputSourceID", code)] with _ | l
  · simp [macSwitchInputLanguage, hcr] at h
  · rcases l with _ | ⟨s, rest⟩
    · simp [macSwitchInputLanguage, hcr] at h
    · by_cases hs : (sys.selectInputSource s st).1 = 0
      · simp [macSwitchInputLanguage, hcr, hs] at h
      · simp [macSwitchInputLanguage, hcr, hs] at h
        exact h.symm

/-- C10 witness: a concrete run in which the native selection fails with
status 5 raises `CarbonError`, and the theorem applies to it. -/
theorem c10_carbon_message_is_fixed_witness :
    (macSwitchInputLanguage (failingSelectSys 5) KB_US { active := KB_US }).result
        = .error (.carbonError carbonFailMsg)
      ∧ carbonFailMsg = carbonFailMsg :=
  ⟨rfl, c10_carbon_message_is_fixed (failingSelectSys 5) KB_US { active := KB_US }
    carbonFailMsg rfl⟩

/-- C5: for every environment, identifier and initial state, the wrapper's
first native call is the lookup with the single-entry filter
`{"TISPropertyInputSourceID": inputSourceCode}`, and whenever the lookup
yields a non-empty list the wrapper issues a selection call on the first
entry of that list. -/
theorem c5_single_entry_filter_and_first_match {σ α : Type} (sys : TISSystem σ α)
    (code : String) (st : σ) :
    (macSwitchInputLanguage sys code st).calls.head?
        = some (.createInputSourceList [("TISPropertyInputSourceID", code)])
    ∧ ∀ (s : α) (rest : List α),
        sys.createInputSourceList [("TISPropertyInputSourceID", code)]
            = some (s :: rest) →
          TISCall.selectInputSource s ∈ (macSwitchInputLanguage sys code st).calls := by
  rcases hcr : sys.createInputSourceList [("TISPropertyInputSourceID", code)] with _ | (_ | ⟨s, rest⟩)
  · refine ⟨by simp [macSwitchInputLanguage, hcr], ?_⟩
    intro s rest hs
    exact absurd hs (by simp)
  · refine ⟨by simp [macSwitchInputLanguage, hcr], ?_⟩
    intro s rest hs
    exact absurd hs (by simp)
  · refine ⟨?_, ?_⟩
    · by_cases hsel : (sys.selectInputSource s st).1 = 0 <;>
        simp [macSwitchInputLanguage, hcr, hsel]
    · intro t tr ht
      obtain ⟨rfl, rfl⟩ := List.cons.inj (Option.some.inj ht)
      by_cases hsel : (sys.selectInputSource s st).1 = 0 <;>
        simp [macSwitchInputLanguage, hcr, hsel]

/-- C5 witness: the theorem at a concrete environment whose lookup matches the
French layout. -/
theorem c5_single_entry_filter_and_first_match_witness :
    (macSwitchInputLanguage (failingSelectSys 5) KB_FRENCH { active := KB_US }).calls.head?
        = some (.createInputSourceList [("TISPropertyInputSourceID", KB_FRENCH)])
    ∧ ∀ (s : String) (rest : List String),
        (failingSelectSys 5).createInputSourceList
            [("TISPropertyInputSourceID", KB_FRENCH)] = some (s :: rest) →
          TISCall.selectInputSource s
            ∈ (macSwitchInputLanguage (failingSelectSys 5) KB_FRENCH { active := KB_US }).calls :=
  c5_single_entry_filter_and_first_match (failingSelectSys 5) KB_FRENCH { active := KB_US }

/-- C6: whenever the lookup returns a non-empty list and the native selection
reports status 0, `macSwitchInputLanguage` returns normally with no value (the
Python function falls off its end, returning `None`). -/
theorem c6_success_returns_nothing {σ α : Type} (sys : TISSystem σ α)
    (code : String) (st : σ) (s : α) (rest : List α)
    (hlist : sys.createInputSourceList [("TISPropertyInputSourceID", code)]
      = some (s :: rest))
    (hstatus : (sys.selectInputSource s st).1 = 0) :
    (macSwitchInputLanguage sys code st).result = .ok () := by
  simp [macSwitchInputLanguage, hlist, hstatus]

/-- C6 witness: a concrete run against a system configured with the French
layout, starting from the US layout, returns normally. -/
theorem c6_success_returns_nothing_witness :
    (macSystem [KB_FRENCH]).createInputSourceList
        [("TISPropertyInputSourceID", KB_FRENCH)] = some (KB_FRENCH :: [])
    ∧ ((macSystem [KB_FRENCH]).selectInputSource KB_FRENCH { active := KB_US }).1 = 0
    ∧ (macSwitchInputLanguage (macSystem [KB_FRENCH]) KB_FRENCH
        { active := KB_US }).result = .ok () :=
  ⟨rfl, rfl,
    c6_success_returns_nothing (macSystem [KB_FRENCH]) KB_FRENCH { active := KB_US }
      KB_FRENCH [] rfl rfl⟩

/-- C9: in every invocation the lookup `TISCreateInputSourceList` is called
exactly once, the selection `TISSelectInputSource` at most once, and a
selection call only ever occurs when the lookup returned a non-absent
(non-`None`) result. -/
theorem c9_one_lookup_at_most_one_select {σ α : Type} (sys : TISSystem σ α)
    (code : String) (st : σ) :
    (macSwitchInputLanguage sys code st).calls.countP (TISCall.isCreate ·) = 1
    ∧ (macSwitchInputLanguage sys code st).calls.countP (TISCall.isSelect ·) ≤ 1
    ∧ (∀ s : α, TISCall.selectInputSource s ∈ (macSwitchInputLanguage sys code st).calls →
        sys.createInputSourceList [("TISPropertyInputSourceID", code)] ≠ none) := by
  rcases hcr : sys.createInputSourceList [("TISPropertyInputSourceID", code)] with _ | (_ | ⟨s, rest⟩)
  · refine ⟨?_, ?_, ?_⟩ <;>
      simp [macSwitchInputLanguage, hcr, TISCall.isCreate, TISCall.isSelect, List.countP_cons]
  · refine ⟨?_, ?_, ?_⟩ <;>
      simp [macSwitchInputLanguage, hcr, TISCall.isCreate, TISCall.isSelect, List.countP_cons]
  · by_cases hsel : (sys.selectInputSource s st).1 = 0 <;>
      refine ⟨?_, ?_, ?_⟩ <;>
      simp [macSwitchInputLanguage, hcr, hsel, TISCall.isCreate, TISCall.isSelect,
        List.countP_cons]

/-- C9 witness: the call-discipline theorem at a concrete environment in which
the selection call is reached. -/
theorem c9_one_lookup_at_most_one_select_witness :
    (macSwitchInputLanguage (failingSelectSys 9) KB_US { active := KB_US }).calls.countP
        (TISCall.isCreate ·) = 1
    ∧ (macSwitchInputLanguage (failingSelectSys 9) KB_US { active := KB_US }).calls.countP
        (TISCall.isSelect ·) ≤ 1
    ∧ (∀ s : String,
        TISCall.selectInputSource s
            ∈ (macSwitchInputLanguage (failingSelectSys 9) KB_US { active := KB_US }).calls →
          (failingSelectSys 9).createInputSourceList
              [("TISPropertyInputSourceID", KB_US)] ≠ none) :=
  c9_one_lookup_at_most_one_select (failingSelectSys 9) KB_US { active := KB_US }

/-- Atomicity of one invocation, as observed through `activeOf` (the active
input source read off the ambient state): either the call returns normally
and the active source is the first entry matched by the lookup, or an error
is raised and the system state is exactly the initial one; moreover when the
not-found error is raised the selection call was never issued. -/
def AtomicOutcome {σ α : Type} (sys : TISSystem σ α) (code : String) (st : σ)
    (activeOf : σ → α) : Prop :=
  (((macSwitchInputLanguage sys code st).result = .ok ()
      ∧ ∃ (s : α) (rest : List α),
          sys.createInputSourceList [("TISPropertyInputSourceID", code)]
              = some (s :: rest)
          ∧ activeOf (macSwitchInputLanguage sys code st).state = s)
    ∨ ((∃ e, (macSwitchInputLanguage sys code st).result = .error e)
      ∧ (macSwitchInputLanguage sys code st).state = st))
  ∧ ((macSwitchInputLanguage sys code st).result
        = .error (.inputLanguageNotFound notFoundMsg) →
      ∀ s : α, TISCall.selectInputSource s ∉ (macSwitchInputLanguage sys code st).calls)

/-- C4: `macSwitchInputLanguage` is atomic from the caller's perspective.
Assuming the native selection call itself is atomic — on a non-zero status it
leaves the system state unchanged, and on status 0 the selected source becomes
active — every invocation either returns normally with the active source fully
switched to the first lookup match, or raises an error with the system state
unchanged; and the selection call is never issued when the not-found error is
raised. -/
theorem c4_atomic_switch_or_unchanged {σ α : Type} (sys : TISSystem σ α)
    (code : String) (st : σ) (activeOf : σ → α)
    (hfail : ∀ (s : α) (st1 : σ), (sys.selectInputSource s st1).1 ≠ 0 →
      (sys.selectInputSource s st1).2 = st1)
    (hok : ∀ (s : α) (st1 : σ), (sys.selectInputSource s st1).1 = 0 →
      activeOf (sys.selectInputSource s st1).2 = s) :
    AtomicOutcome sys code st activeOf := by
  unfold AtomicOutcome
  rcases hcr : sys.createInputSourceList [("TISPropertyInputSourceID", code)] with _ | (_ | ⟨s, rest⟩)
  · refine ⟨Or.inr ⟨⟨.inputLanguageNotFound notFoundMsg, ?_⟩, ?_⟩, ?_⟩
    · simp [macSwitchInputLanguage, hcr]
    · simp [macSwitchInputLanguage, hcr]
    · intro _ t
      simp [macSwitchInputLanguage, hcr]
  · refine ⟨Or.inr ⟨⟨.indexError, ?_⟩, ?_⟩, ?_⟩
    · simp [macSwitchInputLanguage, hcr]
    · simp [macSwitchInputLanguage, hcr]
    · intro _ t
      simp [macSwitchInputLanguage, hcr]
  · by_cases hsel : (sys.selectInputSource s st).1 = 0
    · refine ⟨Or.inl ⟨?_, s, rest, rfl, ?_⟩, ?_⟩
      · simp [macSwitchInputLanguage, hcr, hsel]
      · simp only [macSwitchInputLanguage, hcr]
        simp [hsel, hok s st hsel]
      · intro hres t
        simp [macSwitchInputLanguage, hcr, hsel] at hres
    · refine ⟨Or.inr ⟨⟨.carbonError carbonFailMsg, ?_⟩, ?_⟩, ?_⟩
      · simp [macSwitchInputLanguage, hcr, hsel]
      · simp only [macSwitchInputLanguage, hcr]
        simp [hsel, hfail s st hsel]
      · intro hres t
        simp [macSwitchInputLanguage, hcr, hsel] at hres

/-- C4 witness: atomicity at the reference macOS model with the US and French
layouts configured, switching from US to French. -/
theorem c4_atomic_switch_or_unchanged_witness :
    AtomicOutcome (macSystem [KB_US, KB_FRENCH]) KB_FRENCH { active := KB_US }
      MacState.active :=
  c4_atomic_switch_or_unchanged (macSystem [KB_US, KB_FRENCH]) KB_FRENCH
    { active := KB_US } MacState.active
    (fun s st1 h => by
      by_cases hc : s = KB_US ∨ s = KB_FRENCH
      · simp [macSystem, hc] at h
      · simp [macSystem, hc])
    (fun s st1 h => by
      by_cases hc : s = KB_US ∨ s = KB_FRENCH
      · simp [macSystem, hc]
      · simp [macSystem, hc] at h)

/-- C7: calling with an identifier that is already the active input source is
idempotent on the reference macOS model: the call returns normally, the final
state equals the initial one, and a second call made from the state the first
call left behind produces exactly the same outcome as the first. -/
theorem c7_already_active_is_idempotent (cfg : List String) (code : String)
    (st : MacState) (hcfg : code ∈ cfg) (hact : st.active = code) :
    (macSwitchInputLanguage (macSystem cfg) code st).result = .ok ()
    ∧ (macSwitchInputLanguage (macSystem cfg) code st).state = st
    ∧ macSwitchInputLanguage (macSystem cfg) code
        (macSwitchInputLanguage (macSystem cfg) code st).state
      = macSwitchInputLanguage (macSystem cfg) code st := by
  rcases st with ⟨a⟩
  have ha : a = code := hact
  subst ha
  have hmem : a ∈ cfg.filter (fun s => decide (s = a)) := by
    simp [List.mem_filter, hcfg]
  obtain ⟨s, rest, hfil⟩ :
      ∃ s rest, cfg.filter (fun s => decide (s = a)) = s :: rest := by
    rcases hl : cfg.filter (fun s => decide (s = a)) with _ | ⟨b, l⟩
    · rw [hl] at hmem
      simp at hmem
    · exact ⟨b, l, rfl⟩
  have hs : s = a := by
    have hsm : s ∈ cfg.filter (fun s => decide (s = a)) := by
      rw [hfil]
      exact List.mem_cons_self s rest
    simpa using (List.mem_filter.mp hsm).2
  subst hs
  have hrun : macSwitchInputLanguage (macSystem cfg) s { active := s }
      = { result := .ok ()
          state := { active := s }
          calls := [.createInputSourceList [("TISPropertyInputSourceID", s)],
            .selectInputSource s] } := by
    simp [macSwitchInputLanguage, macSystem, hfil, hcfg]
  exact ⟨by rw [hrun], by rw [hrun], by rw [hrun]; exact hrun⟩

/-- C7 witness: with the US layout configured and already active, switching to
it again succeeds and changes nothing. -/
theorem c7_already_active_is_idempotent_witness :
    (macSwitchInputLanguage (macSystem [KB_US]) KB_US { active := KB_US }).result
        = .ok ()
    ∧ (macSwitchInputLanguage (macSystem [KB_US]) KB_US { active := KB_US }).state
        = { active := KB_US }
    ∧ macSwitchInputLanguage (macSystem [KB_US]) KB_US
          (macSwitchInputLanguage (macSystem [KB_US]) KB_US { active := KB_US }).state
        = macSwitchInputLanguage (macSystem [KB_US]) KB_US { active := KB_US } :=
  c7_already_active_is_idempotent [KB_US] KB_US { active := KB_US }
    (List.mem_singleton.mpr rfl) rfl

/-- C8: two-run determinism.  The wrapper keeps no state across invocations
(the embedding threads none): two runs given equal identifiers, equal initial
system states, and native layers returning equal responses to every call
produce equal outcomes — result, final state and call trace. -/
theorem c8_two_run_determinism {σ α : Type} (sys1 sys2 : TISSystem σ α)
    (code1 code2 : String) (st1 st2 : σ)
    (hcode : code1 = code2) (hst : st1 = st2)
    (hcreate : ∀ props, sys1.createInputSourceList props
      = sys2.createInputSourceList props)
    (hselect : ∀ (s : α) (t : σ), sys1.selectInputSource s t
      = sys2.selectInputSource s t) :
    macSwitchInputLanguage sys1 code1 st1 = macSwitchInputLanguage sys2 code2 st2 := by
  subst hcode
  subst hst
  have hsys : sys1 = sys2 := by
    cases sys1
    cases sys2
    simp only [TISSystem.mk.injEq]
    exact ⟨funext hcreate, funext fun s => funext fun t => hselect s t⟩
  rw [hsys]

/-- C8 witness: the determinism theorem applied to two identical concrete
runs. -/
theorem c8_two_run_determinism_witness :
    macSwitchInputLanguage (macSystem [KB_US]) KB_US { active := KB_US }
      = macSwitchInputLanguage (macSystem [KB_US]) KB_US { active := KB_US } :=
  c8_two_run_determinism (macSystem [KB_US]) (macSystem [KB_US]) KB_US KB_US
    { active := KB_US } { active := KB_US } rfl rfl (fun _ => rfl) (fun _ _ => rfl)

end PyInputLanguage
